import Mathlib

/-!
Shallow embedding of the certificate-cache core of `src/p11_cert.c`
(libp11): the per-token X.509 certificate cache and its operations
(enumerate, find-by-key, remove, reload, store, destroy), together with
the digest-algorithm selection and the create-template construction used
when storing a certificate.

Token-side behaviour (PKCS#11 module calls) is modelled by explicit
inputs: the sequence of results a find iteration produces, the success
of each session / object call, and the attribute values readable from
each object handle.
-/

/-! ## Constants from the PKCS#11 and OpenSSL headers -/

def CKC_X_509 : Nat := 0
def CKO_CERTIFICATE : Nat := 1

def NID_sha1 : Nat := 64
def NID_sha224 : Nat := 675
def NID_sha256 : Nat := 672
def NID_sha384 : Nat := 673
def NID_sha512 : Nat := 674
def NID_sha3_224 : Nat := 1096
def NID_sha3_256 : Nat := 1097
def NID_sha3_384 : Nat := 1098
def NID_sha3_512 : Nat := 1099

def CKM_SHA_1 : Nat := 0x220
def CKM_SHA224 : Nat := 0x255
def CKM_SHA256 : Nat := 0x250
def CKM_SHA384 : Nat := 0x260
def CKM_SHA512 : Nat := 0x270
def CKM_SHA3_224 : Nat := 0x2B5
def CKM_SHA3_256 : Nat := 0x2B0
def CKM_SHA3_384 : Nat := 0x2C0
def CKM_SHA3_512 : Nat := 0x2D0

/-! ## Data model -/

/-- One cached certificate record (`PKCS11_CERT` plus its
`PKCS11_CERT_private`): object handle, id bytes (`id` with `id_len` is
modelled as the list of the `id_len` bytes actually read), optional
label bytes and optional decoded certificate. -/
structure CertRecord where
  object : Nat
  id : List Nat
  label : Option (List Nat)
  x509 : Option Nat
deriving DecidableEq

/-- What the token lets the core read about one object handle:
the result of each `pkcs11_getattr` call performed by
`pkcs11_init_cert`. `none` models a failed read (for `valueAttr`, a
failed read or a failed `d2i_X509` decode). -/
structure TokenObject where
  handle : Nat
  certType : Option Nat
  idAttr : Option (List Nat)
  labelAttr : Option (List Nat)
  valueAttr : Option Nat
deriving DecidableEq

/-- Session-borrow events emitted by the public operations
(`pkcs11_get_session` / `pkcs11_put_session`). -/
inductive Event where
  | acquireOk
  | acquireFail
  | release
deriving DecidableEq

/-- One step of a `C_FindObjects` iteration as seen by the core:
either a handle is returned (count = 1), or the token reports no more
objects (count = 0), or the call fails with a nonzero return value. -/
inductive FindStep where
  | obj : TokenObject → FindStep
  | done : FindStep
  | err : FindStep
deriving DecidableEq

/-! ## Init-certificate (`pkcs11_init_cert`, p11_cert.c:148-213) -/

/-- The record `pkcs11_init_cert` builds from an object: handle and
token back-reference, id read into the fixed buffer (`id_len = 0` on
failure), label read into an owned buffer (`NULL` on failure), value
read and decoded into `x509` (absent on failure). -/
def mkRecord (o : TokenObject) : CertRecord :=
  { object := o.handle
  , id := o.idAttr.getD []
  , label := o.labelAttr
  , x509 := o.valueAttr }

/-- `pkcs11_init_cert`: fail (`none`) when the certificate-type
attribute cannot be read; skip (return the cache unchanged) when the
type is not X.509 or when some cached record already carries the same
object handle; otherwise append the new record. -/
def pkcs11_init_cert (certs : List CertRecord) (o : TokenObject) :
    Option (List CertRecord) :=
  match o.certType with
  | none => none
  | some t =>
    if t ≠ CKC_X_509 then some certs
    else if certs.any (fun c => c.object == o.handle) then some certs
    else some (certs ++ [mkRecord o])

/-! ## Enumerate (`pkcs11_find_certs` / `pkcs11_next_cert` /
`pkcs11_enumerate_certs`, p11_cert.c:37-146) -/

/-- The `do { pkcs11_next_cert } while (res == 0)` loop of
`pkcs11_find_certs`, folded over the token's find steps: `-1` on a
failed `C_FindObjects` call or a failed `pkcs11_init_cert`, `0` once
the token reports no more objects. -/
def pkcs11_find_certs_loop :
    List CertRecord → List FindStep → Int × List CertRecord
  | certs, [] => (0, certs)
  | certs, FindStep.done :: _ => (0, certs)
  | certs, FindStep.err :: _ => (-1, certs)
  | certs, FindStep.obj o :: rest =>
    match pkcs11_init_cert certs o with
    | none => (-1, certs)
    | some certs2 => pkcs11_find_certs_loop certs2 rest

/-- `pkcs11_find_certs`: fail when `C_FindObjectsInit` fails, else run
the find loop (`C_FindObjectsFinal` is always called afterwards and
does not affect the result). -/
def pkcs11_find_certs (findInitOk : Bool) (steps : List FindStep)
    (certs : List CertRecord) : Int × List CertRecord :=
  if findInitOk then pkcs11_find_certs_loop certs steps
  else (-1, certs)

/-- `pkcs11_destroy_certs`: release every record and reset the cache
to empty. -/
def pkcs11_destroy_certs (_certs : List CertRecord) : List CertRecord := []

/-- The token-side inputs of one enumerate call: whether the session is
acquired, whether `C_FindObjectsInit` succeeds, and the find steps the
token then produces. -/
structure EnumToken where
  sessionOk : Bool
  findInitOk : Bool
  steps : List FindStep
deriving DecidableEq

/-- `pkcs11_enumerate_certs`: acquire a read-only session, run
`pkcs11_find_certs`, release the session, and on failure destroy the
whole cache before returning `-1`. Returns the status, the resulting
cache and the session-event trace. -/
def pkcs11_enumerate_certs (tok : EnumToken) (certs : List CertRecord) :
    Int × List CertRecord × List Event :=
  if tok.sessionOk then
    let res := pkcs11_find_certs tok.findInitOk tok.steps certs
    if res.1 < 0 then
      (-1, pkcs11_destroy_certs res.2, [Event.acquireOk, Event.release])
    else (0, res.2, [Event.acquireOk, Event.release])
  else (-1, certs, [Event.acquireFail])

/-! ## Find-by-key (`pkcs11_find_certificate`, p11_cert.c:84-99) -/

/-- The `(id, id_len)` pair carried by a key record
(`PKCS11_KEY_private`), modelled as the list of the `id_len` bytes. -/
structure KeyRecord where
  id : List Nat
deriving DecidableEq

/-- `memcmp(a, b, n) == 0` over byte lists: the first `n` bytes of each
side compare equal. -/
def memcmpEq (a b : List Nat) (n : Nat) : Bool :=
  a.take n == b.take n

/-- `pkcs11_find_certificate`: enumerate, and on success return the
first cached record whose `id_len` equals the key's and whose first
`id_len` id bytes `memcmp`-equal the key's; `none` when enumeration
fails or no record is a match. Also returns the cache enumerate left
behind. -/
def pkcs11_find_certificate (tok : EnumToken) (certs : List CertRecord)
    (key : KeyRecord) : Option CertRecord × List CertRecord :=
  let res := pkcs11_enumerate_certs tok certs
  if res.1 = 0 then
    (res.2.1.find? (fun c =>
        c.id.length == key.id.length && memcmpEq c.id key.id key.id.length),
     res.2.1)
  else (none, res.2.1)

/-! ## Remove (`pkcs11_remove_certificate`, p11_cert.c:64-79) -/

/-- `pkcs11_remove_certificate`: acquire a read-write session, ask the
token to destroy the object named by the record's handle, release the
session, and surface the token's status. The cache itself is never
touched. `destroyOk` is the token's answer to `C_DestroyObject`. -/
def pkcs11_remove_certificate (sessionOk destroyOk : Bool)
    (certs : List CertRecord) (_cert : CertRecord) :
    Int × List CertRecord × List Event :=
  if sessionOk then
    if destroyOk then (0, certs, [Event.acquireOk, Event.release])
    else (-1, certs, [Event.acquireOk, Event.release])
  else (-1, certs, [Event.acquireFail])

/-! ## Reload (`pkcs11_reload_certificate`, p11_cert.c:218-253) -/

/-- Token-side inputs of one reload call: session acquisition,
`C_FindObjectsInit` and `C_FindObjects` statuses, and the handles on
the token matching the search template built from the record's class,
id and label (in the token's find order). -/
structure ReloadToken where
  sessionOk : Bool
  findInitOk : Bool
  findOk : Bool
  foundObjs : List Nat
deriving DecidableEq

/-- `pkcs11_reload_certificate`: build a search template from the
record's id and label, run find-init / one `C_FindObjects` call with
room for a single handle / find-final, release the session. The call
writes the found handle (if any) straight into the record's `object`;
it succeeds iff every token call succeeded and the returned count is
exactly 1.  As the call requests at most one handle, the count is
`min 1 (number of foundObjs on the token)`. -/
def pkcs11_reload_certificate (tok : ReloadToken) (cert : CertRecord) :
    Int × CertRecord × List Event :=
  if tok.sessionOk then
    if tok.findInitOk then
      if tok.findOk then
        match tok.foundObjs with
        | [] => (-1, cert, [Event.acquireOk, Event.release])
        | h :: _ =>
          (0, { cert with object := h }, [Event.acquireOk, Event.release])
      else (-1, cert, [Event.acquireOk, Event.release])
    else (-1, cert, [Event.acquireOk, Event.release])
  else (-1, cert, [Event.acquireFail])

/-! ## Digest-algorithm selection (`pkcs11_store_certificate`,
p11_cert.c:310-350) -/

/-- The `switch (evp_md_nid)` of `pkcs11_store_certificate`: map the
resolved digest NID to the `(evp_md_nid, ckm_md)` pair actually used;
the `default` arm resets the NID to SHA-1 and falls through to the
SHA-1 mechanism. -/
def pkcs11_select_digest (evp_md_nid : Nat) : Nat × Nat :=
  if evp_md_nid = NID_sha1 then (NID_sha1, CKM_SHA_1)
  else if evp_md_nid = NID_sha224 then (NID_sha224, CKM_SHA224)
  else if evp_md_nid = NID_sha256 then (NID_sha256, CKM_SHA256)
  else if evp_md_nid = NID_sha512 then (NID_sha512, CKM_SHA512)
  else if evp_md_nid = NID_sha384 then (NID_sha384, CKM_SHA384)
  else if evp_md_nid = NID_sha3_224 then (NID_sha3_224, CKM_SHA3_224)
  else if evp_md_nid = NID_sha3_256 then (NID_sha3_256, CKM_SHA3_256)
  else if evp_md_nid = NID_sha3_384 then (NID_sha3_384, CKM_SHA3_384)
  else if evp_md_nid = NID_sha3_512 then (NID_sha3_512, CKM_SHA3_512)
  else (NID_sha1, CKM_SHA_1)

/-- The digest-algorithm selector: `evp_md_nid` starts at `NID_sha1`
and `OBJ_find_sigid_algs` overwrites it only when it resolves the
signature algorithm (`resolved = none` models an unresolvable one);
the switch above then picks the pair. -/
def pkcs11_das (resolved : Option Nat) : Nat × Nat :=
  pkcs11_select_digest (resolved.getD NID_sha1)

/-! ## Store (`pkcs11_store_certificate`, p11_cert.c:280-377) -/

/-- One entry of the create template built by
`pkcs11_store_certificate`, tagged by its `CKA_` attribute type. -/
inductive Attr where
  | cka_class (v : Nat)
  | cka_token (b : Bool)
  | cka_certificate_type (v : Nat)
  | cka_subject
  | cka_issuer
  | cka_name_hash_algorithm (mech : Nat)
  | cka_hash_of_subject_public_key
  | cka_value
  | cka_label (s : List Nat)
  | cka_id (bytes : List Nat)
deriving DecidableEq

/-- The caller-side inputs of one store call that shape the template:
the digest NID `OBJ_find_sigid_algs` resolves from the certificate's
signature algorithm (`none` when unresolvable), whether
`X509_pubkey_digest` succeeds, and the optional `label` / `(id,
id_len)` arguments (a `NULL` pointer is `none`). -/
structure StoreArgs where
  resolvedDigest : Option Nat
  pubkeyDigestOk : Bool
  label : Option (List Nat)
  id : Option (List Nat)
deriving DecidableEq

/-- The create template `pkcs11_store_certificate` builds, in the order
the `pkcs11_addattr` calls run: class, token flag, certificate type,
subject, issuer, name-hash-algorithm; then the hash of the subject
public key only when `X509_pubkey_digest` succeeded; then the value;
then label and id when the caller supplied them (the id also needs a
nonzero `id_len`). -/
def pkcs11_store_template (a : StoreArgs) : List Attr :=
  [Attr.cka_class CKO_CERTIFICATE,
   Attr.cka_token true,
   Attr.cka_certificate_type CKC_X_509,
   Attr.cka_subject,
   Attr.cka_issuer,
   Attr.cka_name_hash_algorithm (pkcs11_das a.resolvedDigest).2]
  ++ (if a.pubkeyDigestOk then [Attr.cka_hash_of_subject_public_key] else [])
  ++ [Attr.cka_value]
  ++ (match a.label with
      | some s => [Attr.cka_label s]
      | none => [])
  ++ (match a.id with
      | some bytes => if bytes ≠ [] then [Attr.cka_id bytes] else []
      | none => [])

/-- Token-side inputs of one store call: session acquisition, the
`C_CreateObject` status, and what `pkcs11_init_cert` can read from
the newly created object (whose handle `C_CreateObject` returned). -/
structure StoreToken where
  sessionOk : Bool
  createOk : Bool
  newObj : TokenObject
deriving DecidableEq

/-- `pkcs11_store_certificate`: acquire a read-write session, build the
create template, call `C_CreateObject`, zap the template, and on token
success run `pkcs11_init_cert` on the new handle; the session is
released before the status is surfaced. -/
def pkcs11_store_certificate (tok : StoreToken) (a : StoreArgs)
    (certs : List CertRecord) : Int × List CertRecord × List Event :=
  if tok.sessionOk then
    let _tmpl := pkcs11_store_template a
    if tok.createOk then
      match pkcs11_init_cert certs tok.newObj with
      | some certs2 => (0, certs2, [Event.acquireOk, Event.release])
      | none => (-1, certs, [Event.acquireOk, Event.release])
    else (-1, certs, [Event.acquireOk, Event.release])
  else (-1, certs, [Event.acquireFail])

/-! ## Reachable cache states -/

/-- Reload applied at position `i` of the cache: the record is updated
in place (the found handle is written straight into it); out-of-range
positions leave the cache unchanged. -/
def reloadAt (tok : ReloadToken) (certs : List CertRecord) (i : Nat) :
    List CertRecord :=
  match certs.get? i with
  | none => certs
  | some c => certs.set i (pkcs11_reload_certificate tok c).2.1

/-- Cache states reachable from the empty cache through the public
operations (enumerate, find-by-key, store, remove, reload, destroy),
with arbitrary token-side behaviour at each step. -/
inductive Reachable : List CertRecord → Prop
  | empty : Reachable []
  | enum (tok : EnumToken) {s : List CertRecord} :
      Reachable s → Reachable (pkcs11_enumerate_certs tok s).2.1
  | findKey (tok : EnumToken) (k : KeyRecord) {s : List CertRecord} :
      Reachable s → Reachable (pkcs11_find_certificate tok s k).2
  | store (tok : StoreToken) (a : StoreArgs) {s : List CertRecord} :
      Reachable s → Reachable (pkcs11_store_certificate tok a s).2.1
  | remove (sessionOk destroyOk : Bool) (c : CertRecord)
      {s : List CertRecord} :
      Reachable s →
      Reachable (pkcs11_remove_certificate sessionOk destroyOk s c).2.1
  | reload (tok : ReloadToken) (i : Nat) {s : List CertRecord} :
      Reachable s → Reachable (reloadAt tok s i)
  | destroy {s : List CertRecord} :
      Reachable s → Reachable (pkcs11_destroy_certs s)

/-- Cache states reachable through the operations other than reload:
enumerate, find-by-key, store, remove and destroy. -/
inductive ReachableIns : List CertRecord → Prop
  | empty : ReachableIns []
  | enum (tok : EnumToken) {s : List CertRecord} :
      ReachableIns s → ReachableIns (pkcs11_enumerate_certs tok s).2.1
  | findKey (tok : EnumToken) (k : KeyRecord) {s : List CertRecord} :
      ReachableIns s → ReachableIns (pkcs11_find_certificate tok s k).2
  | store (tok : StoreToken) (a : StoreArgs) {s : List CertRecord} :
      ReachableIns s → ReachableIns (pkcs11_store_certificate tok a s).2.1
  | remove (sessionOk destroyOk : Bool) (c : CertRecord)
      {s : List CertRecord} :
      ReachableIns s →
      ReachableIns (pkcs11_remove_certificate sessionOk destroyOk s c).2.1
  | destroy {s : List CertRecord} :
      ReachableIns s → ReachableIns (pkcs11_destroy_certs s)

/-! ## Helper lemmas -/

/-- Unfolding of `pkcs11_init_cert` when the certificate type reads
successfully. -/
theorem init_cert_eq_some (certs : List CertRecord) (o : TokenObject)
    (t : Nat) (ht : o.certType = some t) :
    pkcs11_init_cert certs o =
      (if t ≠ CKC_X_509 then some certs
       else if certs.any (fun c => c.object == o.handle) then some certs
       else some (certs ++ [mkRecord o])) := by
  unfold pkcs11_init_cert
  rw [ht]

/-- Unfolding of the find loop on a returned object. -/
theorem find_certs_loop_obj (certs : List CertRecord) (o : TokenObject)
    (rest : List FindStep) :
    pkcs11_find_certs_loop certs (FindStep.obj o :: rest) =
      (match pkcs11_init_cert certs o with
       | none => (-1, certs)
       | some certs2 => pkcs11_find_certs_loop certs2 rest) := rfl

/-- A successful `pkcs11_init_cert` preserves distinctness of the
cached object handles. -/
theorem init_cert_nodup {certs certs2 : List CertRecord} {o : TokenObject}
    (h : pkcs11_init_cert certs o = some certs2)
    (hn : (certs.map CertRecord.object).Nodup) :
    (certs2.map CertRecord.object).Nodup := by
  cases ht : o.certType with
  | none => rw [pkcs11_init_cert, ht] at h; exact absurd h (by simp)
  | some t =>
    rw [init_cert_eq_some certs o t ht] at h
    by_cases hx : t ≠ CKC_X_509
    · rw [if_pos hx] at h
      cases h
      exact hn
    · rw [if_neg hx] at h
      by_cases hdup : certs.any (fun c => c.object == o.handle)
      · rw [if_pos hdup] at h
        cases h
        exact hn
      · rw [if_neg hdup] at h
        cases h
        have hnotmem : o.handle ∉ certs.map CertRecord.object := by
          intro hmem
          apply hdup
          rcases List.mem_map.mp hmem with ⟨c, hc, hco⟩
          exact List.any_eq_true.mpr ⟨c, hc, by simp [hco]⟩
        rw [List.map_append, List.nodup_append]
        refine ⟨hn, by simp [mkRecord], ?_⟩
        intro x hx1 hx2
        simp [mkRecord] at hx2
        exact hnotmem (hx2 ▸ hx1)

/-- The find loop only ever reports `0` or `-1`. -/
theorem find_certs_loop_rv (steps : List FindStep) :
    ∀ certs : List CertRecord,
    (pkcs11_find_certs_loop certs steps).1 = 0 ∨
    (pkcs11_find_certs_loop certs steps).1 = -1 := by
  induction steps with
  | nil => intro certs; left; rfl
  | cons s rest ih =>
    intro certs
    cases s with
    | done => left; rfl
    | err => right; rfl
    | obj o =>
      rw [find_certs_loop_obj]
      cases hi : pkcs11_init_cert certs o with
      | none => right; rfl
      | some certs2 => simpa using ih certs2

/-- The find loop preserves distinctness of the cached object
handles. -/
theorem find_certs_loop_nodup (steps : List FindStep) :
    ∀ certs : List CertRecord,
    (certs.map CertRecord.object).Nodup →
    (((pkcs11_find_certs_loop certs steps).2).map CertRecord.object).Nodup := by
  induction steps with
  | nil => intro certs h; exact h
  | cons s rest ih =>
    intro certs h
    cases s with
    | done => exact h
    | err => exact h
    | obj o =>
      rw [find_certs_loop_obj]
      cases hi : pkcs11_init_cert certs o with
      | none => simpa using h
      | some certs2 => simpa using ih certs2 (init_cert_nodup hi h)

/-- Every record in a cache produced by a successful
`pkcs11_init_cert` was already cached, or comes from the processed
object, which then has certificate type X.509. -/
theorem init_cert_mem {certs certs2 : List CertRecord} {o : TokenObject}
    {r : CertRecord} (h : pkcs11_init_cert certs o = some certs2)
    (hr : r ∈ certs2) :
    r ∈ certs ∨ (o.certType = some CKC_X_509 ∧ r = mkRecord o) := by
  cases ht : o.certType with
  | none => rw [pkcs11_init_cert, ht] at h; exact absurd h (by simp)
  | some t =>
    rw [init_cert_eq_some certs o t ht] at h
    by_cases hx : t ≠ CKC_X_509
    · rw [if_pos hx] at h; cases h; exact Or.inl hr
    · rw [if_neg hx] at h
      by_cases hdup : certs.any (fun c => c.object == o.handle)
      · rw [if_pos hdup] at h; cases h; exact Or.inl hr
      · rw [if_neg hdup] at h
        cases h
        rcases List.mem_append.mp hr with hmem | hmem
        · exact Or.inl hmem
        · refine Or.inr ⟨?_, by simpa using hmem⟩
          simp at hx
          rw [hx]

/-- Every record in a cache produced by the find loop was already
cached, or comes from one of the objects the iteration returned, which
then has certificate type X.509. -/
theorem find_certs_loop_mem (steps : List FindStep) :
    ∀ certs : List CertRecord, ∀ r : CertRecord,
    r ∈ (pkcs11_find_certs_loop certs steps).2 →
    r ∈ certs ∨ ∃ o : TokenObject, FindStep.obj o ∈ steps ∧
      o.certType = some CKC_X_509 ∧ r = mkRecord o := by
  induction steps with
  | nil => intro certs r hr; exact Or.inl hr
  | cons s rest ih =>
    intro certs r hr
    cases s with
    | done => exact Or.inl hr
    | err => exact Or.inl hr
    | obj o =>
      rw [find_certs_loop_obj] at hr
      cases hi : pkcs11_init_cert certs o with
      | none => rw [hi] at hr; exact Or.inl hr
      | some certs2 =>
        rw [hi] at hr
        rcases ih certs2 r hr with hmem | ⟨o2, ho2, hty, hrm⟩
        · rcases init_cert_mem hi hmem with hmem2 | ⟨hty, hrm⟩
          · exact Or.inl hmem2
          · exact Or.inr ⟨o, by simp, hty, hrm⟩
        · exact Or.inr ⟨o2, by simp [ho2], hty, hrm⟩

/-- `List.find?` only looks at the pointwise values of its
predicate. -/
theorem findq_ext {α : Type} (p q : α → Bool) (l : List α)
    (h : ∀ a, p a = q a) : l.find? p = l.find? q := by
  induction l with
  | nil => rfl
  | cons a rest ih =>
    rw [List.find?_cons, List.find?_cons, h, ih]

/-- The match predicate of `pkcs11_find_certificate` (length equality
plus `memcmp` over the key's `id_len` bytes) coincides with plain
equality of the id byte lists. -/
theorem matchPred_eq (cid kid : List Nat) :
    (cid.length == kid.length && memcmpEq cid kid kid.length)
      = (cid == kid) := by
  unfold memcmpEq
  by_cases h : cid = kid
  · subst h; simp
  · have h2 : (cid == kid) = false := by simp [h]
    rw [h2]
    by_cases hl : cid.length = kid.length
    · have htc : cid.take kid.length = cid := by
        rw [← hl]; exact List.take_length cid
      have htk : kid.take kid.length = kid := List.take_length kid
      rw [htc, htk]
      simp [hl, h]
    · simp [hl]

/-- Case form of `pkcs11_enumerate_certs` with the destroyed cache
written out. -/
theorem enumerate_certs_cases (tok : EnumToken) (certs : List CertRecord) :
    pkcs11_enumerate_certs tok certs =
      (if tok.sessionOk then
        (if (pkcs11_find_certs tok.findInitOk tok.steps certs).1 < 0 then
          ((-1 : Int), ([] : List CertRecord),
           [Event.acquireOk, Event.release])
        else (0, (pkcs11_find_certs tok.findInitOk tok.steps certs).2,
              [Event.acquireOk, Event.release]))
      else (-1, certs, [Event.acquireFail])) := rfl

/-- Concrete token objects used by the closed witnesses, mirroring the
spec's scenario S2: handle 10 with id `0x01` and label `A`, handle 20
with id `0x02 0x02` and no label, both of type X.509. -/
def objA : TokenObject :=
  ⟨10, some CKC_X_509, some [1], some [65], some 1⟩

def objB : TokenObject :=
  ⟨20, some CKC_X_509, some [2, 2], none, some 2⟩

/-- A token whose find iteration yields `objA` then `objB` and then
reports completion. -/
def tokAB : EnumToken :=
  ⟨true, true, [FindStep.obj objA, FindStep.obj objB, FindStep.done]⟩

/-- A token whose find iteration yields `objA` and then fails. -/
def tokErr : EnumToken :=
  ⟨true, true, [FindStep.obj objA, FindStep.err]⟩

/-- C3: for every fatal error during `pkcs11_enumerate_certs` once the
session is held (failed find-init, failed find call, or failed
init-certificate), the cache is entirely emptied before the operation
returns, so the caller never observes a partially populated cache. -/
theorem enumerate_error_empties_cache (tok : EnumToken)
    (certs : List CertRecord) (hs : tok.sessionOk = true)
    (he : (pkcs11_enumerate_certs tok certs).1 = -1) :
    (pkcs11_enumerate_certs tok certs).2.1 = [] := by
  rw [enumerate_certs_cases] at he ⊢
  rw [if_pos hs] at he ⊢
  by_cases hlt : (pkcs11_find_certs tok.findInitOk tok.steps certs).1 < 0
  · rw [if_pos hlt]
  · rw [if_neg hlt] at he
    simp at he

/-- Witness for C3: a concrete token that fails mid-iteration leaves
an empty cache behind a `-1` status. -/
theorem enumerate_error_empties_cache_witness :
    tokErr.sessionOk = true ∧
    (pkcs11_enumerate_certs tokErr []).1 = -1 ∧
    (pkcs11_enumerate_certs tokErr []).2.1 = [] :=
  ⟨rfl, by decide, enumerate_error_empties_cache tokErr [] rfl (by decide)⟩

/-- C5: `pkcs11_init_cert` fails when the certificate-type attribute
cannot be read; it returns success without inserting when the type is
not X.509; and every record an enumerate starting from the empty cache
produces comes from a returned object of type X.509. -/
theorem init_cert_type_policy :
    (∀ (certs : List CertRecord) (o : TokenObject),
      o.certType = none → pkcs11_init_cert certs o = none)
  ∧ (∀ (certs : List CertRecord) (o : TokenObject) (t : Nat),
      o.certType = some t → t ≠ CKC_X_509 →
      pkcs11_init_cert certs o = some certs)
  ∧ (∀ (tok : EnumToken) (r : CertRecord),
      r ∈ (pkcs11_enumerate_certs tok []).2.1 →
      ∃ o : TokenObject, FindStep.obj o ∈ tok.steps ∧
        o.certType = some CKC_X_509 ∧ r = mkRecord o) := by
  refine ⟨?_, ?_, ?_⟩
  · intro certs o h
    unfold pkcs11_init_cert
    rw [h]
  · intro certs o t ht hx
    rw [init_cert_eq_some certs o t ht, if_pos hx]
  · intro tok r hr
    rw [enumerate_certs_cases] at hr
    by_cases hs : tok.sessionOk = true
    · rw [if_pos hs] at hr
      by_cases hlt : (pkcs11_find_certs tok.findInitOk tok.steps []).1 < 0
      · rw [if_pos hlt] at hr
        exact absurd hr (by simp)
      · rw [if_neg hlt] at hr
        unfold pkcs11_find_certs at hr hlt
        by_cases hf : tok.findInitOk = true
        · rw [if_pos hf] at hr
          rcases find_certs_loop_mem tok.steps [] r hr with h0 | hex
          · exact absurd h0 (by simp)
          · exact hex
        · rw [if_neg hf] at hlt
          exact absurd (by decide) hlt
    · rw [if_neg hs] at hr
      exact absurd hr (by simp)

/-- Witness for C5: a failed type read fails the call, and a concrete
WTLS object (type 2) is skipped while enumerating next to an X.509
object, leaving exactly the X.509 record in the cache. -/
theorem init_cert_type_policy_witness :
    pkcs11_init_cert [] ⟨7, none, none, none, none⟩ = none ∧
    pkcs11_init_cert [mkRecord objA] ⟨9, some 2, some [3], none, none⟩
      = some [mkRecord objA] ∧
    (pkcs11_enumerate_certs
        ⟨true, true, [FindStep.obj objA,
                      FindStep.obj ⟨9, some 2, some [3], none, none⟩,
                      FindStep.done]⟩ []).2.1 = [mkRecord objA] :=
  ⟨init_cert_type_policy.1 [] ⟨7, none, none, none, none⟩ rfl,
   init_cert_type_policy.2.1 [mkRecord objA]
     ⟨9, some 2, some [3], none, none⟩ 2 rfl (by decide),
   by decide⟩

/-- C7: `pkcs11_remove_certificate` leaves the in-memory cache — the
record list and every field of every record — unchanged, on success
and on every failure path. -/
theorem remove_certificate_preserves_cache :
    ∀ (sessionOk destroyOk : Bool) (certs : List CertRecord)
      (cert : CertRecord),
    (pkcs11_remove_certificate sessionOk destroyOk certs cert).2.1
      = certs := by
  intro sOk dOk certs c
  unfold pkcs11_remove_certificate
  cases sOk <;> cases dOk <;> rfl

/-- The session-event trace of `pkcs11_enumerate_certs`: a successful
acquire is always followed by a release. -/
theorem enumerate_certs_trace (tok : EnumToken) (certs : List CertRecord) :
    (pkcs11_enumerate_certs tok certs).2.2 =
      (if tok.sessionOk then [Event.acquireOk, Event.release]
       else [Event.acquireFail]) := by
  rw [enumerate_certs_cases]
  by_cases hs : tok.sessionOk = true
  · rw [if_pos hs, if_pos hs]
    split <;> rfl
  · rw [if_neg hs, if_neg hs]

/-- The session-event trace of `pkcs11_remove_certificate`. -/
theorem remove_certificate_trace (sessionOk destroyOk : Bool)
    (certs : List CertRecord) (cert : CertRecord) :
    (pkcs11_remove_certificate sessionOk destroyOk certs cert).2.2 =
      (if sessionOk then [Event.acquireOk, Event.release]
       else [Event.acquireFail]) := by
  unfold pkcs11_remove_certificate
  cases sessionOk <;> cases destroyOk <;> rfl

/-- The session-event trace of `pkcs11_reload_certificate`. -/
theorem reload_certificate_trace (tok : ReloadToken) (cert : CertRecord) :
    (pkcs11_reload_certificate tok cert).2.2 =
      (if tok.sessionOk then [Event.acquireOk, Event.release]
       else [Event.acquireFail]) := by
  unfold pkcs11_reload_certificate
  by_cases hs : tok.sessionOk = true
  · rw [if_pos hs, if_pos hs]
    by_cases hf : tok.findInitOk = true
    · rw [if_pos hf]
      by_cases hg : tok.findOk = true
      · rw [if_pos hg]
        cases tok.foundObjs <;> rfl
      · rw [if_neg hg]
    · rw [if_neg hf]
  · rw [if_neg hs, if_neg hs]

/-- The session-event trace of `pkcs11_store_certificate`. -/
theorem store_certificate_trace (tok : StoreToken) (a : StoreArgs)
    (certs : List CertRecord) :
    (pkcs11_store_certificate tok a certs).2.2 =
      (if tok.sessionOk then [Event.acquireOk, Event.release]
       else [Event.acquireFail]) := by
  unfold pkcs11_store_certificate
  by_cases hs : tok.sessionOk = true
  · rw [if_pos hs, if_pos hs]
    by_cases hc : tok.createOk = true
    · rw [if_pos hc]
      cases pkcs11_init_cert certs tok.newObj <;> rfl
    · rw [if_neg hc]
  · rw [if_neg hs, if_neg hs]

/-- A session-event trace is balanced when it holds exactly as many
releases as successful acquires. -/
def sessionBalanced (t : List Event) : Prop :=
  t.count Event.release = t.count Event.acquireOk

/-- C8: every public operation that acquires a session (enumerate,
remove, reload, store) releases it on every exit path — its
session-event trace always balances successful acquires with
releases. -/
theorem session_release_balanced :
    (∀ (tok : EnumToken) (certs : List CertRecord),
      sessionBalanced (pkcs11_enumerate_certs tok certs).2.2)
  ∧ (∀ (sessionOk destroyOk : Bool) (certs : List CertRecord)
       (cert : CertRecord),
      sessionBalanced
        (pkcs11_remove_certificate sessionOk destroyOk certs cert).2.2)
  ∧ (∀ (tok : ReloadToken) (cert : CertRecord),
      sessionBalanced (pkcs11_reload_certificate tok cert).2.2)
  ∧ (∀ (tok : StoreToken) (a : StoreArgs) (certs : List CertRecord),
      sessionBalanced (pkcs11_store_certificate tok a certs).2.2) := by
  refine ⟨?_, ?_, ?_, ?_⟩
  · intro tok certs
    rw [sessionBalanced, enumerate_certs_trace]
    by_cases hs : tok.sessionOk = true
    · rw [if_pos hs]; decide
    · rw [if_neg hs]; decide
  · intro sOk dOk certs c
    rw [sessionBalanced, remove_certificate_trace]
    by_cases hs : sOk = true
    · rw [if_pos hs]; decide
    · rw [if_neg hs]; decide
  · intro tok c
    rw [sessionBalanced, reload_certificate_trace]
    by_cases hs : tok.sessionOk = true
    · rw [if_pos hs]; decide
    · rw [if_neg hs]; decide
  · intro tok a certs
    rw [sessionBalanced, store_certificate_trace]
    by_cases hs : tok.sessionOk = true
    · rw [if_pos hs]; decide
    · rw [if_neg hs]; decide

/-- C4: the digest-algorithm selection of `pkcs11_store_certificate`
maps each of the nine SHA / SHA-3 digest NIDs to its matching
`(digest NID, CKM mechanism)` pair, and any other or unresolvable
digest to the SHA-1 pair. -/
theorem store_digest_selection_table :
    pkcs11_das (some NID_sha1) = (NID_sha1, CKM_SHA_1)
  ∧ pkcs11_das (some NID_sha224) = (NID_sha224, CKM_SHA224)
  ∧ pkcs11_das (some NID_sha256) = (NID_sha256, CKM_SHA256)
  ∧ pkcs11_das (some NID_sha384) = (NID_sha384, CKM_SHA384)
  ∧ pkcs11_das (some NID_sha512) = (NID_sha512, CKM_SHA512)
  ∧ pkcs11_das (some NID_sha3_224) = (NID_sha3_224, CKM_SHA3_224)
  ∧ pkcs11_das (some NID_sha3_256) = (NID_sha3_256, CKM_SHA3_256)
  ∧ pkcs11_das (some NID_sha3_384) = (NID_sha3_384, CKM_SHA3_384)
  ∧ pkcs11_das (some NID_sha3_512) = (NID_sha3_512, CKM_SHA3_512)
  ∧ pkcs11_das none = (NID_sha1, CKM_SHA_1)
  ∧ (∀ n : Nat, n ≠ NID_sha1 → n ≠ NID_sha224 → n ≠ NID_sha256 →
      n ≠ NID_sha384 → n ≠ NID_sha512 → n ≠ NID_sha3_224 →
      n ≠ NID_sha3_256 → n ≠ NID_sha3_384 → n ≠ NID_sha3_512 →
      pkcs11_das (some n) = (NID_sha1, CKM_SHA_1)) := by
  refine ⟨by decide, by decide, by decide, by decide, by decide, by decide,
    by decide, by decide, by decide, by decide, ?_⟩
  intro n h1 h2 h3 h4 h5 h6 h7 h8 h9
  unfold pkcs11_das pkcs11_select_digest
  simp only [Option.getD_some]
  rw [if_neg h1, if_neg h2, if_neg h3, if_neg h5, if_neg h4, if_neg h6,
      if_neg h7, if_neg h8, if_neg h9]

/-- Witness for C4: an unrelated NID falls back to the SHA-1 pair. -/
theorem store_digest_selection_table_witness :
    pkcs11_das (some 4242) = (NID_sha1, CKM_SHA_1) :=
  store_digest_selection_table.2.2.2.2.2.2.2.2.2.2 4242 (by decide)
    (by decide) (by decide) (by decide) (by decide) (by decide) (by decide)
    (by decide) (by decide)

/-- Membership in the conditional id chunk of the create template. -/
theorem mem_id_chunk (x : Attr) (bytes : List Nat) :
    (x ∈ (if bytes ≠ ([] : List Nat) then [Attr.cka_id bytes] else []))
      ↔ (bytes ≠ [] ∧ x = Attr.cka_id bytes) := by
  by_cases hb : bytes = []
  · subst hb; simp
  · simp [hb]

/-- C9: the create template holds the hash-of-subject-public-key
attribute exactly when `X509_pubkey_digest` succeeded, while class,
token flag, certificate type, subject, issuer, name-hash-algorithm and
value are always present. -/
theorem store_template_hash_attr_iff :
    ∀ a : StoreArgs,
    (Attr.cka_hash_of_subject_public_key ∈ pkcs11_store_template a ↔
      a.pubkeyDigestOk = true)
  ∧ Attr.cka_class CKO_CERTIFICATE ∈ pkcs11_store_template a
  ∧ Attr.cka_token true ∈ pkcs11_store_template a
  ∧ Attr.cka_certificate_type CKC_X_509 ∈ pkcs11_store_template a
  ∧ Attr.cka_subject ∈ pkcs11_store_template a
  ∧ Attr.cka_issuer ∈ pkcs11_store_template a
  ∧ Attr.cka_name_hash_algorithm (pkcs11_das a.resolvedDigest).2
      ∈ pkcs11_store_template a
  ∧ Attr.cka_value ∈ pkcs11_store_template a := by
  intro a
  refine ⟨?_, ?_, ?_, ?_, ?_, ?_, ?_, ?_⟩
  · unfold pkcs11_store_template
    cases hpk : a.pubkeyDigestOk <;> cases hl : a.label <;>
      cases hid : a.id <;> simp [mem_id_chunk]
  all_goals
    unfold pkcs11_store_template
  all_goals
    simp [List.mem_append]

/-- On a successful enumerate, `pkcs11_find_certificate` returns the
first record of the refreshed cache whose id byte list equals the
key's (the id-length equality plus `memcmp` collapses to list
equality). -/
theorem find_certificate_success_eq (tok : EnumToken)
    (certs : List CertRecord) (key : KeyRecord)
    (h : (pkcs11_enumerate_certs tok certs).1 = 0) :
    (pkcs11_find_certificate tok certs key).1 =
      ((pkcs11_enumerate_certs tok certs).2.1).find?
        (fun c => c.id == key.id) := by
  simp only [pkcs11_find_certificate]
  rw [if_pos h]
  exact findq_ext _ _ ((pkcs11_enumerate_certs tok certs).2.1)
    (fun c => matchPred_eq c.id key.id)

/-- C6: find-by-key enumerates and returns the first cached record
whose `id_len` equals the key's and whose id bytes compare equal —
equivalently, the first record with the same id byte list — and
returns not-found when enumeration fails. -/
theorem find_certificate_first_id_match :
    ∀ (tok : EnumToken) (certs : List CertRecord) (key : KeyRecord),
    ((pkcs11_enumerate_certs tok certs).1 ≠ 0 →
      (pkcs11_find_certificate tok certs key).1 = none)
  ∧ ((pkcs11_enumerate_certs tok certs).1 = 0 →
      (pkcs11_find_certificate tok certs key).1 =
        ((pkcs11_enumerate_certs tok certs).2.1).find?
          (fun c => c.id == key.id)) := by
  intro tok certs key
  constructor
  · intro h
    simp only [pkcs11_find_certificate]
    rw [if_neg h]
  · intro h
    exact find_certificate_success_eq tok certs key h

/-- Witness for C6: on the concrete two-record token, the key with id
`0x02 0x02` finds the record for handle 20. -/
theorem find_certificate_first_id_match_witness :
    (pkcs11_enumerate_certs tokAB []).1 = 0 ∧
    (pkcs11_find_certificate tokAB [] ⟨[2, 2]⟩).1 =
      ((pkcs11_enumerate_certs tokAB []).2.1).find?
        (fun c => c.id == [2, 2]) ∧
    (pkcs11_find_certificate tokAB [] ⟨[2, 2]⟩).1 = some (mkRecord objB) :=
  ⟨by decide,
   (find_certificate_first_id_match tokAB [] ⟨[2, 2]⟩).2 (by decide),
   by decide⟩

/-- C10: with a zero-length key id the `memcmp` comparison is vacuous,
so find-by-key returns the first cached record whose own id is empty,
and not-found only when every cached record has a non-empty id. -/
theorem find_certificate_empty_id (tok : EnumToken)
    (certs : List CertRecord)
    (h : (pkcs11_enumerate_certs tok certs).1 = 0) :
    (pkcs11_find_certificate tok certs ⟨[]⟩).1 =
      ((pkcs11_enumerate_certs tok certs).2.1).find? (fun c => c.id == [])
  ∧ ((pkcs11_find_certificate tok certs ⟨[]⟩).1 = none ↔
      ∀ c ∈ (pkcs11_enumerate_certs tok certs).2.1, c.id ≠ []) := by
  have h1 := find_certificate_success_eq tok certs ⟨[]⟩ h
  refine ⟨h1, ?_⟩
  rw [h1, List.find?_eq_none]
  constructor
  · intro hall c hc
    simpa using hall c hc
  · intro hall c hc
    simpa using hall c hc

/-- A token object with no readable id: the cached record then has
`id_len = 0`. -/
def oNoId : TokenObject := ⟨30, some CKC_X_509, none, none, none⟩

/-- A token whose find iteration yields only `oNoId`. -/
def tokNoId : EnumToken := ⟨true, true, [FindStep.obj oNoId, FindStep.done]⟩

/-- Witness for C10: against a token with one id-less certificate, the
empty-id key finds that record rather than reporting not-found. -/
theorem find_certificate_empty_id_witness :
    (pkcs11_enumerate_certs tokNoId []).1 = 0 ∧
    (pkcs11_find_certificate tokNoId [] ⟨[]⟩).1 =
      ((pkcs11_enumerate_certs tokNoId []).2.1).find?
        (fun c => c.id == []) ∧
    (pkcs11_find_certificate tokNoId [] ⟨[]⟩).1 = some (mkRecord oNoId) :=
  ⟨by decide, (find_certificate_empty_id tokNoId [] (by decide)).1, by decide⟩

/-- Counterexample to C1 as stated: `pkcs11_reload_certificate` asks
`C_FindObjects` for at most one handle, so a token holding two
matching objects still returns a count of 1 and reload succeeds — it
does not fail for more than one match on the token. -/
theorem reload_two_matches_succeeds :
    ¬ (∀ (tok : ReloadToken) (cert : CertRecord),
        tok.foundObjs.length ≠ 1 →
        (pkcs11_reload_certificate tok cert).1 = -1) := by
  intro h
  have h2 := h ⟨true, true, true, [20, 30]⟩ ⟨10, [1], some [65], none⟩
    (by decide)
  exact absurd h2 (by decide)

/-- C1 amended: reload succeeds iff the session and both find calls
succeed and at least one object on the token matches the search
template; on success the handle of the first matching object
overwrites the record's `object_handle` (the other fields are
untouched); on any failure — including zero matches — the record is
unchanged. -/
theorem reload_success_iff_first_match :
    ∀ (tok : ReloadToken) (cert : CertRecord),
    ((pkcs11_reload_certificate tok cert).1 = 0 ↔
      tok.sessionOk = true ∧ tok.findInitOk = true ∧ tok.findOk = true ∧
        tok.foundObjs ≠ [])
  ∧ ((pkcs11_reload_certificate tok cert).1 = 0 →
      tok.foundObjs.head? =
        some (pkcs11_reload_certificate tok cert).2.1.object ∧
      (pkcs11_reload_certificate tok cert).2.1.id = cert.id ∧
      (pkcs11_reload_certificate tok cert).2.1.label = cert.label ∧
      (pkcs11_reload_certificate tok cert).2.1.x509 = cert.x509)
  ∧ ((pkcs11_reload_certificate tok cert).1 ≠ 0 →
      (pkcs11_reload_certificate tok cert).2.1 = cert) := by
  intro tok cert
  obtain ⟨sOk, fiOk, fOk, objs⟩ := tok
  cases sOk <;> cases fiOk <;> cases fOk <;> cases objs <;>
    simp [pkcs11_reload_certificate]

/-- Witness for C1 amended: a reload whose find answer is the single
handle 32 succeeds and rewrites the record's handle to 32. -/
theorem reload_success_iff_first_match_witness :
    (pkcs11_reload_certificate ⟨true, true, true, [32]⟩
        ⟨16, [1], some [65], none⟩).1 = 0 ∧
    ([32] : List Nat).head? =
      some (pkcs11_reload_certificate ⟨true, true, true, [32]⟩
        ⟨16, [1], some [65], none⟩).2.1.object :=
  ⟨by decide,
   ((reload_success_iff_first_match ⟨true, true, true, [32]⟩
      ⟨16, [1], some [65], none⟩).2.1 (by decide)).1⟩

/-- The cache is untouched by `pkcs11_remove_certificate`. -/
theorem remove_certificate_cache_eq (sessionOk destroyOk : Bool)
    (certs : List CertRecord) (cert : CertRecord) :
    (pkcs11_remove_certificate sessionOk destroyOk certs cert).2.1
      = certs := by
  unfold pkcs11_remove_certificate
  cases sessionOk <;> cases destroyOk <;> rfl

/-- `pkcs11_find_certificate` leaves behind exactly the cache its
enumerate produced. -/
theorem find_certificate_cache_eq (tok : EnumToken)
    (certs : List CertRecord) (key : KeyRecord) :
    (pkcs11_find_certificate tok certs key).2 =
      (pkcs11_enumerate_certs tok certs).2.1 := by
  simp only [pkcs11_find_certificate]
  split <;> rfl

/-- Enumerate preserves distinctness of the cached object handles. -/
theorem enumerate_certs_nodup (tok : EnumToken) (certs : List CertRecord)
    (h : (certs.map CertRecord.object).Nodup) :
    (((pkcs11_enumerate_certs tok certs).2.1).map CertRecord.object).Nodup := by
  rw [enumerate_certs_cases]
  by_cases hs : tok.sessionOk = true
  · rw [if_pos hs]
    by_cases hlt : (pkcs11_find_certs tok.findInitOk tok.steps certs).1 < 0
    · rw [if_pos hlt]
      simp
    · rw [if_neg hlt]
      show ((pkcs11_find_certs tok.findInitOk tok.steps certs).2.map
        CertRecord.object).Nodup
      unfold pkcs11_find_certs
      by_cases hf : tok.findInitOk = true
      · rw [if_pos hf]
        exact find_certs_loop_nodup tok.steps certs h
      · rw [if_neg hf]
        exact h
  · rw [if_neg hs]
    exact h

/-- Store preserves distinctness of the cached object handles. -/
theorem store_certificate_nodup (tok : StoreToken) (a : StoreArgs)
    (certs : List CertRecord)
    (h : (certs.map CertRecord.object).Nodup) :
    (((pkcs11_store_certificate tok a certs).2.1).map CertRecord.object).Nodup := by
  unfold pkcs11_store_certificate
  by_cases hs : tok.sessionOk = true
  · rw [if_pos hs]
    by_cases hc : tok.createOk = true
    · rw [if_pos hc]
      cases hi : pkcs11_init_cert certs tok.newObj with
      | none => simpa using h
      | some certs2 => simpa using init_cert_nodup hi h
    · rw [if_neg hc]
      exact h
  · rw [if_neg hs]
    exact h

/-- Counterexample to C2 as stated: reload is a public operation that
writes the token's answer straight into a record's `object_handle`,
so a reachable two-record cache can end up with both records carrying
handle 20 after a reload whose find answer is 20. -/
theorem reload_breaks_handle_uniqueness :
    ¬ (∀ s : List CertRecord, Reachable s →
        (s.map CertRecord.object).Nodup) := by
  intro h
  have hr : Reachable
      (reloadAt ⟨true, true, true, [20]⟩
        (pkcs11_enumerate_certs tokAB []).2.1 0) :=
    Reachable.reload ⟨true, true, true, [20]⟩ 0
      (Reachable.enum tokAB Reachable.empty)
  have hn := h _ hr
  revert hn
  decide

/-- C2 amended: in every cache state reachable through the inserting
and clearing operations (enumerate, find-by-key, store, remove,
destroy), no two records share an object handle — the linear dedup
scan of `pkcs11_init_cert` keeps the insert path duplicate-free; only
reload can overwrite a handle with one already cached. -/
theorem insert_ops_preserve_handle_uniqueness :
    ∀ s : List CertRecord, ReachableIns s →
    (s.map CertRecord.object).Nodup := by
  intro s h
  induction h with
  | empty => simp
  | enum tok hprev ih => exact enumerate_certs_nodup tok _ ih
  | findKey tok k hprev ih =>
    rw [find_certificate_cache_eq]
    exact enumerate_certs_nodup tok _ ih
  | store tok a hprev ih => exact store_certificate_nodup tok a _ ih
  | remove sOk dOk c hprev ih =>
    rw [remove_certificate_cache_eq]
    exact ih
  | destroy hprev ih => simp [pkcs11_destroy_certs]

/-- Witness for C2 amended: the concrete two-record cache enumerate
builds from `tokAB` has pairwise distinct handles. -/
theorem insert_ops_preserve_handle_uniqueness_witness :
    (((pkcs11_enumerate_certs tokAB []).2.1).map CertRecord.object).Nodup :=
  insert_ops_preserve_handle_uniqueness _
    (ReachableIns.enum tokAB ReachableIns.empty)
